import Mathlib

/-!
Verification of the FFmpeg command validation core of the kortar repository.

The definitions below are a shallow embedding of `src/common/validators.py`:

* `ensure_overwrite_flag` embeds the inline `-y`-insertion snippet that appears
  both in `prepare_ffmpeg_test_command` (lines 26-27) and in
  `validate_ffmpeg_filter_complex` (lines 106-109);
* `add_test_flags` embeds the flag-insertion prelude of
  `prepare_ffmpeg_test_command` (lines 23-33);
* `shlexSplit` embeds Python's `shlex.split` (POSIX mode, whitespace splitting)
  including its `ValueError` outcomes (unbalanced quote, trailing escape),
  which are modelled as `none`;
* `shlexQuote` embeds Python's `shlex.quote`;
* `findOutputIndex` embeds the backward scan of lines 41-55;
* `null_subst` embeds the try/except body of lines 35-67;
* `prepare_ffmpeg_test_command` embeds the whole function (lines 13-73);
* `reMatchesMissingInput` embeds `re.search(r"-i\s+(-f\s+null|$|\s+-)", s)`
  from line 99 with Python backtracking-search semantics (a match exists iff
  some decomposition matches);
* `validate_ffmpeg_filter_complex` embeds the function of lines 76-163.  The
  subprocess call is abstracted by an oracle `run : String -> ExecOutcome`
  giving the outcome of executing the dry-run command; the extra `spawned`
  field records whether the oracle was consulted (i.e. whether the code
  reaches `subprocess.run`).

Character-class notes: Python's `str.strip`, `str.lower` and the regex class
`\s` are Unicode-aware; the commands handled by this repository are ASCII, and
the embedding uses the ASCII portions of those classes (plus the common C1
whitespace controls for `\s`).
-/

/-- ASCII whitespace as recognised by Python's `str.strip` and the regex
class `\s` (restricted to ASCII plus the C1 controls). -/
def pyWhitespaceChar (c : Char) : Bool :=
  c = ' ' || c = '\t' || c = '\n' || c = '\r' || c = '\x0b' || c = '\x0c' ||
  c = '\x1c' || c = '\x1d' || c = '\x1e' || c = '\x1f' || c = '\x85' || c = '\xa0'

/-- Python `str.strip()`: drop leading and trailing whitespace. -/
def pyStrip (s : String) : String :=
  String.mk (((s.data.dropWhile pyWhitespaceChar).reverse.dropWhile pyWhitespaceChar).reverse)

/-- Python `str.lower()` (ASCII case folding). -/
def asciiLower (s : String) : String :=
  String.mk (s.data.map Char.toLower)

/-- Python `s.startswith(pat)`. -/
def pyStartsWith (s pat : String) : Bool :=
  pat.data.isPrefixOf s.data

/-- `listHasSub pat cs` is Python's `pat in cs` on character lists. -/
def listHasSub (pat : List Char) : List Char → Bool
  | [] => pat.isPrefixOf []
  | c :: t => pat.isPrefixOf (c :: t) || listHasSub pat t

/-- Python `pat in s` (substring test). -/
def pyContains (s pat : String) : Bool :=
  listHasSub pat.data s.data

/-- Replace the first occurrence of `pat` by `rep`, as Python's
`s.replace(pat, rep, 1)`. -/
def listReplaceFirst (pat rep : List Char) : List Char → List Char
  | [] => if pat.isPrefixOf ([] : List Char) then rep else []
  | c :: t =>
    if pat.isPrefixOf (c :: t) then rep ++ (c :: t).drop pat.length
    else c :: listReplaceFirst pat rep t

/-- Python `s.replace(pat, rep, 1)`. -/
def pyReplaceFirst (s pat rep : String) : String :=
  String.mk (listReplaceFirst pat.data rep.data s.data)

/-- The inline overwrite-flag snippet of `validators.py` (lines 26-27 and
106-109): insert `-y` right after `ffmpeg ` unless ` -y ` occurs in the
command or the command starts with `ffmpeg -y`. -/
def ensure_overwrite_flag (command : String) : String :=
  if pyContains command " -y " || pyStartsWith command "ffmpeg -y" then command
  else pyReplaceFirst command "ffmpeg " "ffmpeg -y "

/-- Lines 23-33 of `prepare_ffmpeg_test_command`: add `-y`, `-hide_banner`
and `-loglevel error` after the `ffmpeg ` prefix when missing. -/
def add_test_flags (command : String) : String :=
  let t1 := ensure_overwrite_flag command
  let t2 :=
    if pyContains t1 " -hide_banner" then t1
    else pyReplaceFirst t1 "ffmpeg " "ffmpeg -hide_banner "
  if pyContains t2 " -loglevel" then t2
  else pyReplaceFirst t2 "ffmpeg " "ffmpeg -loglevel error "

/-- Whitespace as used by Python's `shlex` lexer (exactly space, tab, CR, LF). -/
def shlexWs (c : Char) : Bool :=
  c = ' ' || c = '\t' || c = '\r' || c = '\n'

/-- Lexer states of Python's `shlex` in POSIX mode: between tokens, inside a
word, inside a quote, or after a backslash (remembering whether the backslash
occurred inside a double quote). -/
inductive SState where
  | ws : SState
  | word : SState
  | quoting : Char → SState
  | escaping : Option Char → SState

/-- One pass of Python's `shlex` lexer (POSIX mode, `whitespace_split=True`):
`shlexRun input state accRev quoted toksRev`.  `accRev` is the current token
reversed, `quoted` records whether the current token saw a quote (so that
`''` yields an empty token), `toksRev` are the finished tokens reversed.
Returns `none` where CPython raises `ValueError` (unclosed quote at EOF,
dangling escape at EOF). -/
def shlexRun : List Char → SState → List Char → Bool → List String → Option (List String)
  | [], SState.ws, _, _, toks => some toks.reverse
  | [], SState.word, acc, quoted, toks =>
    if acc.isEmpty && !quoted then some toks.reverse
    else some ((String.mk acc.reverse) :: toks).reverse
  | [], SState.quoting _, _, _, _ => none
  | [], SState.escaping _, _, _, _ => none
  | c :: rest, SState.ws, acc, quoted, toks =>
    if shlexWs c then shlexRun rest SState.ws acc quoted toks
    else if c = '\\' then shlexRun rest (SState.escaping none) acc quoted toks
    else if c = '\x27' || c = '"' then shlexRun rest (SState.quoting c) acc true toks
    else shlexRun rest SState.word (c :: acc) quoted toks
  | c :: rest, SState.word, acc, quoted, toks =>
    if shlexWs c then
      if acc.isEmpty && !quoted then shlexRun rest SState.ws [] false toks
      else shlexRun rest SState.ws [] false ((String.mk acc.reverse) :: toks)
    else if c = '\x27' || c = '"' then shlexRun rest (SState.quoting c) acc true toks
    else if c = '\\' then shlexRun rest (SState.escaping none) acc quoted toks
    else shlexRun rest SState.word (c :: acc) quoted toks
  | c :: rest, SState.quoting q, acc, quoted, toks =>
    if c = q then shlexRun rest SState.word acc quoted toks
    else if q = '"' && c = '\\' then shlexRun rest (SState.escaping (some q)) acc quoted toks
    else shlexRun rest (SState.quoting q) (c :: acc) quoted toks
  | c :: rest, SState.escaping back, acc, quoted, toks =>
    match back with
    | none => shlexRun rest SState.word (c :: acc) quoted toks
    | some q =>
      if c = '\\' || c = q then shlexRun rest (SState.quoting q) (c :: acc) quoted toks
      else shlexRun rest (SState.quoting q) (c :: '\\' :: acc) quoted toks

/-- Python `shlex.split(s)`; `none` models a raised `ValueError`. -/
def shlexSplit (s : String) : Option (List String) :=
  shlexRun s.data SState.ws [] false []

/-- Characters that `shlex.quote` leaves unquoted: ASCII alphanumerics,
underscore, and `@ % + = : , .` slash and dash. -/
def shlexSafeChar (c : Char) : Bool :=
  (('a' ≤ c && c ≤ 'z') || ('A' ≤ c && c ≤ 'Z') || ('0' ≤ c && c ≤ '9')) ||
  c = '_' || c = '@' || c = '%' || c = '+' || c = '=' || c = ':' ||
  c = ',' || c = '.' || c = '/' || c = '-'

/-- Python `shlex.quote(s)`. -/
def shlexQuote (s : String) : String :=
  if s = "" then "\x27\x27"
  else if s.data.all shlexSafeChar then s
  else "\x27" ++ String.mk (s.data.flatMap
    (fun c => if c = '\x27' then "\x27\"\x27\"\x27".data else [c])) ++ "\x27"

/-- Python `" ".join(tokens)`. -/
def joinTokens : List String → String
  | [] => ""
  | [t] => t
  | t :: ts => t ++ " " ++ joinTokens ts

/-- The body of the backward-scan loop (lines 42-55): a token at index `i` is
an output candidate unless it starts with `-`, is `/dev/null`, or directly
follows a flag other than `-map` or `-i`. -/
def isOutputCandidate (tokens : List String) (i : Nat) : Bool :=
  let token := tokens.getD i ""
  if pyStartsWith token "-" || token == "/dev/null" then false
  else if decide (0 < i) && pyStartsWith (tokens.getD (i - 1) "") "-" &&
      !(tokens.getD (i - 1) "" == "-map" || tokens.getD (i - 1) "" == "-i") then false
  else true

/-- The backward scan `for i in range(len(tokens) - 1, -1, -1)` of lines
41-55, examining indices `n-1, n-2, ...`. -/
def findOutputIdxAux (tokens : List String) : Nat → Option Nat
  | 0 => none
  | n + 1 => if isOutputCandidate tokens n then some n else findOutputIdxAux tokens n

/-- Index of the token the code takes for the output file, scanning from the
end (lines 40-55). -/
def findOutputIndex (tokens : List String) : Option Nat :=
  findOutputIdxAux tokens tokens.length

/-- The try/except block of lines 35-67: tokenize, replace the tail from the
output candidate by `-f null -` and re-quote, append `-f null -` when no
candidate is found, and fall back to plain appending when tokenization
raises. -/
def null_subst (t : String) : String :=
  match shlexSplit t with
  | none => t ++ " -f null -"
  | some tokens =>
    match findOutputIndex tokens with
    | some i => joinTokens ((tokens.take i ++ ["-f", "null", "-"]).map shlexQuote)
    | none => t ++ " -f null -"

/-- `prepare_ffmpeg_test_command` of `validators.py` (lines 13-73). -/
def prepare_ffmpeg_test_command (command : String) : String :=
  let t4 := null_subst (add_test_flags command)
  if pyContains t4 "-f null" then t4 else t4 ++ " -f null -"

/-- `\s*` then `p`, with backtracking (existential) semantics: some split of a
whitespace run followed by a match of `p`. -/
def wsStarThen (p : List Char → Bool) : List Char → Bool
  | [] => p []
  | c :: rest => p (c :: rest) || (pyWhitespaceChar c && wsStarThen p rest)

/-- `\s+` then `p`. -/
def wsPlusThen (p : List Char → Bool) (cs : List Char) : Bool :=
  match cs with
  | [] => false
  | c :: rest => pyWhitespaceChar c && wsStarThen p rest

/-- Match of the group `(-f\s+null|$|\s+-)` at the current position; `$`
matches the end of the string or a position before a final newline. -/
def altMI (cs : List Char) : Bool :=
  (match cs with
   | '-' :: 'f' :: rest => wsPlusThen (fun ds => "null".data.isPrefixOf ds) rest
   | _ => false) ||
  (cs = [] || cs = ['\n']) ||
  wsPlusThen (fun ds => match ds with | '-' :: _ => true | _ => false) cs

/-- `re.search(r"-i\s+(-f\s+null|$|\s+-)", s)` (line 99): does any suffix
start with `-i`, one or more whitespace characters, and the group? -/
def searchMissingInput : List Char → Bool
  | [] => false
  | c :: rest =>
    (match c :: rest with
     | '-' :: 'i' :: after => wsPlusThen altMI after
     | _ => false) ||
    searchMissingInput rest

/-- Truth value of the missing-input regex on a command string. -/
def reMatchesMissingInput (s : String) : Bool :=
  searchMissingInput s.data

/-- Outcome of executing the dry-run command (`subprocess.run` at lines
118-124): normal exit with a return code and captured stderr, a
`subprocess.TimeoutExpired`, or any other raised exception with its message. -/
inductive ExecOutcome where
  | exited : Int → String → ExecOutcome
  | timedOut : ExecOutcome
  | raised : String → ExecOutcome
deriving DecidableEq

/-- The `filter_complex` syntax check of lines 140-142. -/
def filterComplexTrigger (cleaned : String) : Bool :=
  !pyContains cleaned "-filter_complex" &&
  (pyContains cleaned "overlay=" || pyContains cleaned "zoompan=")

/-- Result of `validate_ffmpeg_filter_complex`: the returned triple
`(is_valid, error_message, cleaned_command)` plus the model-level flag
`spawned` recording whether `subprocess.run` was reached. -/
structure ValidateResult where
  is_valid : Bool
  error_message : Option String
  cleaned_command : String
  spawned : Bool
deriving DecidableEq, Repr

/-- `validate_ffmpeg_filter_complex` of `validators.py` (lines 76-163), with
the subprocess abstracted by the oracle `run`. -/
def validate_ffmpeg_filter_complex (run : String → ExecOutcome)
    (command : String) (timeout : Nat) : ValidateResult :=
  if !(pyStartsWith (asciiLower (pyStrip command)) "ffmpeg") then
    { is_valid := false
      error_message := some "The command must start with \"ffmpeg\""
      cleaned_command := command
      spawned := false }
  else if reMatchesMissingInput command then
    { is_valid := false
      error_message :=
        some "Missing input file after -i flag. Please specify a valid input file path."
      cleaned_command := command
      spawned := false }
  else
    let cleaned_command := ensure_overwrite_flag command
    let test_command := prepare_ffmpeg_test_command cleaned_command
    match run test_command with
    | ExecOutcome.exited rc stderr =>
      if rc ≠ 0 then
        { is_valid := false
          error_message :=
            some ("FFmpeg command validation failed with error: " ++ pyStrip stderr)
          cleaned_command := cleaned_command
          spawned := true }
      else if filterComplexTrigger cleaned_command then
        { is_valid := false
          error_message := some "Command should use -filter_complex for the specified filters."
          cleaned_command := cleaned_command
          spawned := true }
      else
        { is_valid := true
          error_message := none
          cleaned_command := cleaned_command
          spawned := true }
    | ExecOutcome.timedOut =>
      { is_valid := true
        error_message :=
          some ("Command validation timed out after " ++ toString timeout ++ " seconds")
        cleaned_command := cleaned_command
        spawned := true }
    | ExecOutcome.raised msg =>
      { is_valid := false
        error_message := some ("Command validation error: " ++ msg)
        cleaned_command := cleaned_command
        spawned := true }

/-! ## Helper lemmas -/

/-- Appending strings appends their character lists. -/
theorem str_data_append (s t : String) : (s ++ t).data = s.data ++ t.data := rfl

/-- A prefix of `l₁` is a prefix of `l₁ ++ l₂`. -/
theorem isPrefixOf_append_of : ∀ (pat l₁ l₂ : List Char),
    pat.isPrefixOf l₁ = true → pat.isPrefixOf (l₁ ++ l₂) = true
  | [], _, _, _ => by simp [List.isPrefixOf]
  | _ :: _, [], _, h => by simp [List.isPrefixOf] at h
  | p :: ps, c :: t, l₂, h => by
    simp only [List.isPrefixOf, List.cons_append, Bool.and_eq_true] at h ⊢
    exact ⟨h.1, isPrefixOf_append_of ps t l₂ h.2⟩

/-- The empty pattern occurs in every list. -/
theorem listHasSub_nil : ∀ l : List Char, listHasSub [] l = true
  | [] => rfl
  | _ :: t => by
    simp only [listHasSub, List.isPrefixOf, Bool.true_or]

/-- A substring of `l₂` is a substring of `l₁ ++ l₂`. -/
theorem listHasSub_append_right : ∀ (pat l₁ l₂ : List Char),
    listHasSub pat l₂ = true → listHasSub pat (l₁ ++ l₂) = true
  | _, [], _, h => h
  | pat, c :: t, l₂, h => by
    show (pat.isPrefixOf (c :: (t ++ l₂)) || listHasSub pat (t ++ l₂)) = true
    rw [listHasSub_append_right pat t l₂ h, Bool.or_true]

/-- A substring of `l₁` is a substring of `l₁ ++ l₂`. -/
theorem listHasSub_append_left : ∀ (pat l₁ l₂ : List Char),
    listHasSub pat l₁ = true → listHasSub pat (l₁ ++ l₂) = true
  | pat, [], l₂, h => by
    cases pat with
    | nil => exact listHasSub_nil l₂
    | cons p ps => simp [listHasSub, List.isPrefixOf] at h
  | pat, c :: t, l₂, h => by
    show (pat.isPrefixOf (c :: (t ++ l₂)) || listHasSub pat (t ++ l₂)) = true
    rcases Bool.or_eq_true_iff.mp h with hpre | hsub
    · have hp := isPrefixOf_append_of pat (c :: t) l₂ hpre
      rw [List.cons_append] at hp
      rw [hp, Bool.true_or]
    · rw [listHasSub_append_left pat t l₂ hsub, Bool.or_true]

/-- `replace(pat, rep, 1)` on a string not containing `pat` is the identity. -/
theorem listReplaceFirst_of_not_sub : ∀ (pat rep cs : List Char),
    listHasSub pat cs = false → listReplaceFirst pat rep cs = cs
  | pat, rep, [], h => by
    simp only [listHasSub] at h
    simp [listReplaceFirst, h]
  | pat, rep, c :: t, h => by
    simp only [listHasSub, Bool.or_eq_false_iff] at h
    simp only [listReplaceFirst, h.1, Bool.false_eq_true, if_false]
    rw [listReplaceFirst_of_not_sub pat rep t h.2]

/-- When `pat` occurs, the replacement result decomposes around `rep`. -/
theorem listReplaceFirst_decomp : ∀ (pat rep cs : List Char),
    listHasSub pat cs = true →
    ∃ A B, listReplaceFirst pat rep cs = A ++ (rep ++ B)
  | pat, rep, [], h => by
    simp only [listHasSub] at h
    exact ⟨[], [], by simp [listReplaceFirst, h]⟩
  | pat, rep, c :: t, h => by
    by_cases hp : pat.isPrefixOf (c :: t) = true
    · exact ⟨[], (c :: t).drop pat.length, by simp [listReplaceFirst, hp]⟩
    · have hsub : listHasSub pat t = true := by
        rcases Bool.or_eq_true_iff.mp h with h1 | h2
        · exact absurd h1 hp
        · exact h2
      obtain ⟨A, B, hAB⟩ := listReplaceFirst_decomp pat rep t hsub
      refine ⟨c :: A, B, ?_⟩
      simp only [listReplaceFirst, hp, Bool.false_eq_true, if_false, hAB, List.cons_append]

/-- Any string with `" -f null -"` appended contains the `-f null` marker. -/
theorem contains_append_fnull (s : String) :
    pyContains (s ++ " -f null -") "-f null" = true := by
  show listHasSub "-f null".data (s ++ " -f null -").data = true
  rw [str_data_append]
  exact listHasSub_append_right _ _ _ (by decide)

/-- Unfolding of `joinTokens` on a cons with a nonempty tail. -/
theorem joinTokens_cons (y : String) (l : List String) (h : l ≠ []) :
    joinTokens (y :: l) = y ++ " " ++ joinTokens l := by
  cases l with
  | nil => exact absurd rfl h
  | cons a as => rfl

/-- A space-join of tokens ending in `-f null -` contains the marker. -/
theorem joinTokens_fnull : ∀ ys : List String,
    listHasSub "-f null".data (joinTokens (ys ++ ["-f", "null", "-"])).data = true
  | [] => by decide
  | y :: ys => by
    rw [List.cons_append, joinTokens_cons _ _ (by simp), str_data_append]
    exact listHasSub_append_right _ _ _ (joinTokens_fnull ys)

/-- The backward scan returns the greatest candidate index below `n`. -/
theorem findOutputIdxAux_some (toks : List String) :
    ∀ n i, i < n → isOutputCandidate toks i = true →
      (∀ j, i < j → j < n → isOutputCandidate toks j = false) →
      findOutputIdxAux toks n = some i := by
  intro n
  induction n with
  | zero => intro i hi _ _; exact absurd hi (Nat.not_lt_zero i)
  | succ n ih =>
    intro i hi hcand hall
    show (if isOutputCandidate toks n then some n else findOutputIdxAux toks n) = some i
    by_cases hn : i = n
    · subst hn; rw [if_pos hcand]
    · have hlt : i < n := Nat.lt_of_le_of_ne (Nat.le_of_lt_succ hi) hn
      have hno : isOutputCandidate toks n = false := hall n hlt (Nat.lt_succ_self n)
      rw [if_neg (by simp [hno])]
      exact ih i hlt hcand (fun j h1 h2 => hall j h1 (Nat.lt_succ_of_lt h2))

/-! ## Claim theorems -/

/-- C3: every command whose stripped, lowercased text does not start with
`ffmpeg` is rejected by `validate_ffmpeg_filter_complex` with the structural
message naming the required tool prefix, and no subprocess is spawned. -/
theorem kortar_c3_tool_name_check (c : String) (t : Nat) (run : String → ExecOutcome)
    (h : pyStartsWith (asciiLower (pyStrip c)) "ffmpeg" = false) :
    validate_ffmpeg_filter_complex run c t =
      { is_valid := false
        error_message := some "The command must start with \"ffmpeg\""
        cleaned_command := c
        spawned := false } := by
  simp [validate_ffmpeg_filter_complex, h]

/-- C3 witness: the spec scenario `nottool -i in.mp4 out.mp4` is rejected
before any subprocess is spawned. -/
theorem kortar_c3_witness :
    validate_ffmpeg_filter_complex (fun _ => ExecOutcome.exited 0 "")
        "nottool -i in.mp4 out.mp4" 10 =
      { is_valid := false
        error_message := some "The command must start with \"ffmpeg\""
        cleaned_command := "nottool -i in.mp4 out.mp4"
        spawned := false } :=
  kortar_c3_tool_name_check "nottool -i in.mp4 out.mp4" 10
    (fun _ => ExecOutcome.exited 0 "") (by decide)

/-- C9 counterexample: for a command ending in a bare `-y` token, the
overwrite flag is inserted again even though it is already present, because
presence is only detected as the infix ` -y ` or the prefix `ffmpeg -y`. -/
theorem kortar_c9_counterexample :
    ensure_overwrite_flag "ffmpeg -i a.mp4 -y" = "ffmpeg -y -i a.mp4 -y" ∧
    ensure_overwrite_flag "ffmpeg -i a.mp4 -y" ≠ "ffmpeg -i a.mp4 -y" :=
  ⟨by decide, by decide⟩

/-- C9 (amended): `ensure_overwrite_flag` is idempotent — applying it twice
yields the same string as applying it once — although it is not duplicate-free
(see the counterexample). -/
theorem kortar_c9_overwrite_flag_idem (c : String) :
    ensure_overwrite_flag (ensure_overwrite_flag c) = ensure_overwrite_flag c := by
  have estep : ∀ s, ensure_overwrite_flag s =
      if (pyContains s " -y " || pyStartsWith s "ffmpeg -y") = true then s
      else pyReplaceFirst s "ffmpeg " "ffmpeg -y " := fun s => rfl
  by_cases h : (pyContains c " -y " || pyStartsWith c "ffmpeg -y") = true
  · have ec : ensure_overwrite_flag c = c := by rw [estep, if_pos h]
    rw [ec, ec]
  · have ec : ensure_overwrite_flag c = pyReplaceFirst c "ffmpeg " "ffmpeg -y " := by
      rw [estep, if_neg h]
    rw [ec]
    by_cases hf : listHasSub "ffmpeg ".data c.data = true
    · obtain ⟨A, B, hAB⟩ :=
        listReplaceFirst_decomp "ffmpeg ".data "ffmpeg -y ".data c.data hf
      have hy : pyContains (pyReplaceFirst c "ffmpeg " "ffmpeg -y ") " -y " = true := by
        show listHasSub " -y ".data
          (listReplaceFirst "ffmpeg ".data "ffmpeg -y ".data c.data) = true
        rw [hAB]
        exact listHasSub_append_right _ _ _ (listHasSub_append_left _ _ _ (by decide))
      rw [estep, if_pos (by rw [hy, Bool.true_or])]
    · have hf' : listHasSub "ffmpeg ".data c.data = false := by
        revert hf; cases listHasSub "ffmpeg ".data c.data <;> simp
      have hr : pyReplaceFirst c "ffmpeg " "ffmpeg -y " = c := by
        show String.mk (listReplaceFirst "ffmpeg ".data "ffmpeg -y ".data c.data) = c
        rw [listReplaceFirst_of_not_sub _ _ _ hf']
      rw [hr, estep, if_neg h]
      exact hr

/-- C8: `prepare_ffmpeg_test_command` is total and its result always contains
the `-f null` marker; when tokenization fails (e.g. on unbalanced quotes) it
falls back to plain concatenation of ` -f null -` onto the flag-augmented
command. -/
theorem kortar_c8_total_null_marker :
    (∀ c : String, pyContains (prepare_ffmpeg_test_command c) "-f null" = true) ∧
    (∀ c : String, shlexSplit (add_test_flags c) = none →
        prepare_ffmpeg_test_command c = add_test_flags c ++ " -f null -") := by
  constructor
  · intro c
    simp only [prepare_ffmpeg_test_command]
    by_cases h : pyContains (null_subst (add_test_flags c)) "-f null" = true
    · rw [if_pos h]; exact h
    · rw [if_neg h]; exact contains_append_fnull _
  · intro c hsplit
    simp only [prepare_ffmpeg_test_command, null_subst, hsplit]
    rw [if_pos (contains_append_fnull _)]

/-- C8 witness: a command with an unbalanced quote makes tokenization fail,
and the fallback appends ` -f null -` without raising. -/
theorem kortar_c8_witness :
    shlexSplit (add_test_flags "ffmpeg -i \x27a.mp4 out.mp4") = none ∧
    prepare_ffmpeg_test_command "ffmpeg -i \x27a.mp4 out.mp4" =
      add_test_flags "ffmpeg -i \x27a.mp4 out.mp4" ++ " -f null -" :=
  ⟨by decide, kortar_c8_total_null_marker.2 "ffmpeg -i \x27a.mp4 out.mp4" (by decide)⟩

/-- C4 counterexample: `ffmpeg -i -codec copy out.mp4` has the input flag
immediately followed by another flag, yet structural validation passes and
the subprocess is spawned (the regex only catches `-f null`, end-of-string
after whitespace, or a dash after two whitespace characters). -/
theorem kortar_c4_counterexample :
    (validate_ffmpeg_filter_complex (fun _ => ExecOutcome.exited 0 "")
        "ffmpeg -i -codec copy out.mp4" 10).spawned = true ∧
    (validate_ffmpeg_filter_complex (fun _ => ExecOutcome.exited 0 "")
        "ffmpeg -i -codec copy out.mp4" 10).is_valid = true :=
  ⟨by decide, by decide⟩

/-- C4 (amended): every command matching the code's missing-input regex
`-i\s+(-f\s+null|$|\s+-)` (and starting with the tool name) is rejected with
the missing-input structural error before any subprocess is spawned. -/
theorem kortar_c4_missing_input_regex (c : String) (t : Nat) (run : String → ExecOutcome)
    (h1 : pyStartsWith (asciiLower (pyStrip c)) "ffmpeg" = true)
    (h2 : reMatchesMissingInput c = true) :
    validate_ffmpeg_filter_complex run c t =
      { is_valid := false
        error_message :=
          some "Missing input file after -i flag. Please specify a valid input file path."
        cleaned_command := c
        spawned := false } := by
  simp [validate_ffmpeg_filter_complex, h1, h2]

/-- C4 witness: the spec scenario `ffmpeg -i -f null -` is caught by the
missing-input check before any subprocess is spawned. -/
theorem kortar_c4_witness :
    validate_ffmpeg_filter_complex (fun _ => ExecOutcome.exited 0 "")
        "ffmpeg -i -f null -" 10 =
      { is_valid := false
        error_message :=
          some "Missing input file after -i flag. Please specify a valid input file path."
        cleaned_command := "ffmpeg -i -f null -"
        spawned := false } :=
  kortar_c4_missing_input_regex "ffmpeg -i -f null -" 10
    (fun _ => ExecOutcome.exited 0 "") (by decide) (by decide)

/-- C2 counterexample: on nonzero exit the error message is not the trimmed
stderr itself but the trimmed stderr behind the fixed prefix
`FFmpeg command validation failed with error: `. -/
theorem kortar_c2_counterexample :
    (validate_ffmpeg_filter_complex (fun _ => ExecOutcome.exited 1 " boom ")
        "ffmpeg -i a.mp4 out.mp4" 10).error_message ≠ some (pyStrip " boom ") := by
  decide

/-- C2 (amended): for a structurally valid command whose dry-run subprocess
exits, a nonzero status yields an invalid verdict whose message is the fixed
prefix followed by the trimmed stderr; status 0 yields a valid verdict with
no message unless the filter-complex heuristic fires, in which case the
verdict is invalid with the filter-complex message. -/
theorem kortar_c2_exit_verdict (c stderr : String) (rc : Int) (t : Nat)
    (run : String → ExecOutcome)
    (h1 : pyStartsWith (asciiLower (pyStrip c)) "ffmpeg" = true)
    (h2 : reMatchesMissingInput c = false)
    (hrun : run (prepare_ffmpeg_test_command (ensure_overwrite_flag c)) =
      ExecOutcome.exited rc stderr) :
    (rc ≠ 0 → validate_ffmpeg_filter_complex run c t =
      { is_valid := false
        error_message :=
          some ("FFmpeg command validation failed with error: " ++ pyStrip stderr)
        cleaned_command := ensure_overwrite_flag c
        spawned := true }) ∧
    (rc = 0 → filterComplexTrigger (ensure_overwrite_flag c) = false →
      validate_ffmpeg_filter_complex run c t =
        { is_valid := true
          error_message := none
          cleaned_command := ensure_overwrite_flag c
          spawned := true }) ∧
    (rc = 0 → filterComplexTrigger (ensure_overwrite_flag c) = true →
      validate_ffmpeg_filter_complex run c t =
        { is_valid := false
          error_message := some "Command should use -filter_complex for the specified filters."
          cleaned_command := ensure_overwrite_flag c
          spawned := true }) := by
  refine ⟨fun hrc => ?_, fun hrc hf => ?_, fun hrc hf => ?_⟩
  · simp [validate_ffmpeg_filter_complex, h1, h2, hrun, hrc]
  · simp [validate_ffmpeg_filter_complex, h1, h2, hrun, hrc, hf]
  · simp [validate_ffmpeg_filter_complex, h1, h2, hrun, hrc, hf]

/-- C2 witness: a failing dry-run with stderr ` boom` produces the prefixed,
trimmed message and the `-y`-augmented cleaned command. -/
theorem kortar_c2_witness :
    validate_ffmpeg_filter_complex (fun _ => ExecOutcome.exited 1 " boom")
        "ffmpeg -i a.mp4 out.mp4" 10 =
      { is_valid := false
        error_message := some "FFmpeg command validation failed with error: boom"
        cleaned_command := "ffmpeg -y -i a.mp4 out.mp4"
        spawned := true } := by
  have h := (kortar_c2_exit_verdict "ffmpeg -i a.mp4 out.mp4" " boom" 1 10
      (fun _ => ExecOutcome.exited 1 " boom") (by decide) (by decide) rfl).1 (by decide)
  rw [h]; decide

/-- C10: whenever the dry-run subprocess times out,
`validate_ffmpeg_filter_complex` returns a verdict that is valid and
nevertheless carries the timeout message mentioning the configured number of
seconds — so `is_valid = true` does not imply `error_message = none`. -/
theorem kortar_c10_timeout_valid_with_message (c : String) (t : Nat)
    (run : String → ExecOutcome)
    (h1 : pyStartsWith (asciiLower (pyStrip c)) "ffmpeg" = true)
    (h2 : reMatchesMissingInput c = false)
    (hrun : run (prepare_ffmpeg_test_command (ensure_overwrite_flag c)) =
      ExecOutcome.timedOut) :
    validate_ffmpeg_filter_complex run c t =
      { is_valid := true
        error_message :=
          some ("Command validation timed out after " ++ toString t ++ " seconds")
        cleaned_command := ensure_overwrite_flag c
        spawned := true } ∧
    (validate_ffmpeg_filter_complex run c t).is_valid = true ∧
    (validate_ffmpeg_filter_complex run c t).error_message ≠ none := by
  have h : validate_ffmpeg_filter_complex run c t =
      { is_valid := true
        error_message :=
          some ("Command validation timed out after " ++ toString t ++ " seconds")
        cleaned_command := ensure_overwrite_flag c
        spawned := true } := by
    simp [validate_ffmpeg_filter_complex, h1, h2, hrun]
  exact ⟨h, by rw [h], by rw [h]; simp⟩

/-- C10 witness: a timed-out dry-run of `ffmpeg -i clip.mp4 out.mp4` with a
9-second budget yields a valid verdict carrying the timeout message. -/
theorem kortar_c10_witness :
    validate_ffmpeg_filter_complex (fun _ => ExecOutcome.timedOut)
        "ffmpeg -i clip.mp4 out.mp4" 9 =
      { is_valid := true
        error_message := some "Command validation timed out after 9 seconds"
        cleaned_command := "ffmpeg -y -i clip.mp4 out.mp4"
        spawned := true } := by
  have h := (kortar_c10_timeout_valid_with_message "ffmpeg -i clip.mp4 out.mp4" 9
      (fun _ => ExecOutcome.timedOut) (by decide) (by decide) rfl).1
  rw [h]; decide

/-- C1 counterexample: `validate_ffmpeg_filter_complex` takes no policy
parameter, and on a timed-out dry-run its verdict is never the strict
`is_valid = false` the claim promises: at this concrete timed-out input the
verdict is valid. -/
theorem kortar_c1_counterexample :
    (validate_ffmpeg_filter_complex (fun _ => ExecOutcome.timedOut)
        "ffmpeg -i in.mp4 out.mp4" 7).is_valid ≠ false := by
  decide

/-- C1 (amended): the timeout behavior of `validate_ffmpeg_filter_complex`
is hard-coded, not selected by any caller-supplied policy parameter: for
every command, timeout budget and execution oracle, a timed-out dry-run
yields `is_valid = true` together with the timeout message. -/
theorem kortar_c1_timeout_hardcoded_lenient (c : String) (t : Nat)
    (run : String → ExecOutcome)
    (h1 : pyStartsWith (asciiLower (pyStrip c)) "ffmpeg" = true)
    (h2 : reMatchesMissingInput c = false)
    (hrun : run (prepare_ffmpeg_test_command (ensure_overwrite_flag c)) =
      ExecOutcome.timedOut) :
    (validate_ffmpeg_filter_complex run c t).is_valid = true ∧
    (validate_ffmpeg_filter_complex run c t).error_message =
      some ("Command validation timed out after " ++ toString t ++ " seconds") := by
  constructor <;> simp [validate_ffmpeg_filter_complex, h1, h2, hrun]

/-- C1 witness: a timed-out dry-run of `ffmpeg -i b.mp4 out.mp4` with a
3-second budget is judged valid with the timeout message. -/
theorem kortar_c1_witness :
    (validate_ffmpeg_filter_complex (fun _ => ExecOutcome.timedOut)
        "ffmpeg -i b.mp4 out.mp4" 3).is_valid = true ∧
    (validate_ffmpeg_filter_complex (fun _ => ExecOutcome.timedOut)
        "ffmpeg -i b.mp4 out.mp4" 3).error_message =
      some ("Command validation timed out after " ++ toString 3 ++ " seconds") :=
  kortar_c1_timeout_hardcoded_lenient "ffmpeg -i b.mp4 out.mp4" 3
    (fun _ => ExecOutcome.timedOut) (by decide) (by decide) rfl

/-- C5 counterexample: `prepare_ffmpeg_test_command` is not idempotent on the
well-formed command `ffmpeg -i in.mp4 out.mp4`, which has a locatable output
token. -/
theorem kortar_c5_counterexample :
    prepare_ffmpeg_test_command
        (prepare_ffmpeg_test_command "ffmpeg -i in.mp4 out.mp4") ≠
      prepare_ffmpeg_test_command "ffmpeg -i in.mp4 out.mp4" := by
  decide

/-- C5 (amended): applying the dry-run transform twice does not stack two
null-output specs, but it is not idempotent either: because `-i` is on the
allow-list of the backward scan, the second application selects the input
path after `-i` as the output candidate and deletes it. -/
theorem kortar_c5_not_idempotent :
    prepare_ffmpeg_test_command "ffmpeg -i in.mp4 out.mp4" =
      "ffmpeg -loglevel error -hide_banner -y -i in.mp4 -f null -" ∧
    prepare_ffmpeg_test_command
        "ffmpeg -loglevel error -hide_banner -y -i in.mp4 -f null -" =
      "ffmpeg -loglevel error -hide_banner -y -i -f null -" ∧
    pyContains "ffmpeg -loglevel error -hide_banner -y -i -f null -" "in.mp4" = false :=
  ⟨by decide, by decide, by decide⟩

/-- C6 counterexample: for `ffmpeg -i in.mp4 -f null -` the transform does
not preserve all original tokens — the input path after `-i` is selected as
the output candidate and removed. -/
theorem kortar_c6_counterexample :
    pyContains (prepare_ffmpeg_test_command "ffmpeg -i in.mp4 -f null -")
      "in.mp4" = false := by
  decide

/-- C6 (amended): when the backward scan finds no output candidate the
transform appends ` -f null -` to the flag-augmented command instead of
corrupting it; but `ffmpeg -i in.mp4 -f null -` does have a candidate (the
input path after `-i`), so that path is replaced, and the null marker is
present in the result. -/
theorem kortar_c6_append_when_no_candidate :
    (∀ (c : String) (toks : List String),
        shlexSplit (add_test_flags c) = some toks →
        findOutputIndex toks = none →
        prepare_ffmpeg_test_command c = add_test_flags c ++ " -f null -") ∧
    (prepare_ffmpeg_test_command "ffmpeg -i in.mp4 -f null -" =
        "ffmpeg -loglevel error -hide_banner -y -i -f null -" ∧
      pyContains (prepare_ffmpeg_test_command "ffmpeg -i in.mp4 -f null -")
        "-f null" = true) := by
  constructor
  · intro c toks hsplit hfind
    simp only [prepare_ffmpeg_test_command, null_subst, hsplit, hfind]
    rw [if_pos (contains_append_fnull _)]
  · exact ⟨by decide, by decide⟩

/-- C6 witness: `-f null -` tokenizes but offers no output candidate, so the
null spec is appended (here twice in total, since the input already carried
one). -/
theorem kortar_c6_witness :
    prepare_ffmpeg_test_command "-f null -" = "-f null - -f null -" := by
  have h := kortar_c6_append_when_no_candidate.1 "-f null -" ["-f", "null", "-"]
    (by decide) (by decide)
  rw [h]; decide

/-- C7: when the backward scan finds the output token, the transform replaces
exactly the tail from that token by `-f null -` and re-quotes, leaving the
tokens before it in place; for the scenario command `ffmpeg -i in.mp4 out.mp4`
the result ends with the null-output spec and retains `-i in.mp4` unchanged. -/
theorem kortar_c7_tail_replacement :
    (∀ (c : String) (toks : List String) (i : Nat),
        shlexSplit (add_test_flags c) = some toks →
        i < toks.length →
        isOutputCandidate toks i = true →
        (∀ j, i < j → j < toks.length → isOutputCandidate toks j = false) →
        prepare_ffmpeg_test_command c =
          joinTokens ((toks.take i ++ ["-f", "null", "-"]).map shlexQuote)) ∧
    ("-f null -".data.isSuffixOf
        (prepare_ffmpeg_test_command "ffmpeg -i in.mp4 out.mp4").data = true ∧
      pyContains (prepare_ffmpeg_test_command "ffmpeg -i in.mp4 out.mp4")
        "-i in.mp4" = true) := by
  constructor
  · intro c toks i hsplit hi hcand hall
    have hfind : findOutputIndex toks = some i :=
      findOutputIdxAux_some toks toks.length i hi hcand hall
    have hq : (["-f", "null", "-"] : List String).map shlexQuote =
        ["-f", "null", "-"] := by decide
    have hJ : pyContains
        (joinTokens ((toks.take i ++ ["-f", "null", "-"]).map shlexQuote))
        "-f null" = true := by
      show listHasSub "-f null".data _ = true
      rw [List.map_append, hq]
      exact joinTokens_fnull _
    simp only [prepare_ffmpeg_test_command, null_subst, hsplit, hfind]
    rw [if_pos hJ]
  · exact ⟨by decide, by decide⟩

/-- C7 witness: for `ffmpeg -i in.mp4 out.mp4` the scan selects `out.mp4`
(index 7 of the flag-augmented token list) and the transform yields the
expected dry-run command. -/
theorem kortar_c7_witness :
    prepare_ffmpeg_test_command "ffmpeg -i in.mp4 out.mp4" =
      "ffmpeg -loglevel error -hide_banner -y -i in.mp4 -f null -" := by
  have h := kortar_c7_tail_replacement.1 "ffmpeg -i in.mp4 out.mp4"
    ["ffmpeg", "-loglevel", "error", "-hide_banner", "-y", "-i", "in.mp4", "out.mp4"] 7
    (by decide) (by decide) (by decide)
    (fun j h1 h2 => absurd (show j < 8 by simpa using h2) (by omega))
  rw [h]; decide
